import Mathlib

/-!
Verification development for the yt-dlp / Gemini phone-call IVR server.

The definitions below are a shallow embedding of the route handlers and
services of `server.js` (and, where a claim cites them, of the near-duplicate
variants `part_000` .. `part_004`).  Stateful handlers are modelled as pure
functions from the request fields and the relevant shared state (session
table, download queue) to the rendered TwiML document and the new state.
JavaScript `Map` objects are modelled as association lists with `Map.set`
replacement semantics, wall-clock instants as natural numbers of
milliseconds, and `Date.now() - startTime` comparisons over `Int`.
-/

/-- One track record pushed onto a session's `musicHistory`. -/
structure Track where
  title : String
  url : String
deriving DecidableEq

/-- One entry of a session's `chatHistory` (role and text of a turn). -/
structure ChatTurn where
  role : String
  text : String
deriving DecidableEq

/-- Per-call session state, as created by `getSession`:
`{ chatHistory: [], musicHistory: [], index: -1 }`. -/
structure Session where
  chatHistory : List ChatTurn
  musicHistory : List Track
  index : Int
deriving DecidableEq

/-- The fresh session value `getSession` installs for an unknown call id. -/
def initSession : Session :=
  { chatHistory := [], musicHistory := [], index := -1 }

/-- A `downloadQueue` entry: `{status:'pending', startTime}`,
`{status:'done', url, title}` or `{status:'error'}`. -/
inductive JobStatus where
  | pending (startTime : Nat)
  | done (url : String) (title : String)
  | error
deriving DecidableEq

/-- Whether a job entry is in a terminal state (the spec's `done`/`error`). -/
def isTerminal : JobStatus → Bool
  | .pending _ => false
  | .done _ _ => true
  | .error => true

/-- The TwiML primitives the handlers emit.  `gatherPlay url` is a `gather`
verb wrapping `play(url)` (used while a track plays so a digit can
interrupt it); `gather route` is a bare input-collection verb whose
`action` is `route`. -/
inductive TwiML where
  | say (text : String)
  | gather (action : String)
  | gatherPlay (url : String)
  | play (url : String)
  | pause (length : Nat)
  | redirect (route : String)
  | reject
deriving DecidableEq

/-- `CONFIG.VERIFIED_CALLERS` from `server.js`. -/
def VERIFIED_CALLERS : List String :=
  ["+972548498889", "+972554402506", "+972525585720", "+972528263032", "+972583230268"]

/-- `CONFIG.MESSAGES.WELCOME`. -/
def WELCOME : String := "Hello! Speak to Gemini, or press Hash for music."

/-- `CONFIG.MESSAGES.NO_HISTORY`. -/
def MESSAGES_NO_HISTORY : String := "No history yet."

/-- `CONFIG.MESSAGES.SEARCHING`. -/
def MESSAGES_SEARCHING : String := "Searching SoundCloud..."

/-- `CONFIG.DOWNLOAD_DIR`. -/
def DOWNLOAD_DIR : String := "/tmp"

/-- Association list with JavaScript `Map.set` semantics: replaces the value
at an existing key, appends a fresh entry otherwise. -/
def mapSet {α : Type} (t : List (String × α)) (k : String) (v : α) :
    List (String × α) :=
  match t with
  | [] => [(k, v)]
  | (k1, v1) :: rest => if k1 = k then (k, v) :: rest else (k1, v1) :: mapSet rest k v

/-- `Map.get`: the value at a key, if present. -/
def mapGet {α : Type} (t : List (String × α)) (k : String) : Option α :=
  match t with
  | [] => none
  | (k1, v1) :: rest => if k1 = k then some v1 else mapGet rest k

/-- `Map.delete`: removes the entry at a key. -/
def mapDelete {α : Type} (t : List (String × α)) (k : String) : List (String × α) :=
  match t with
  | [] => []
  | (k1, v1) :: rest => if k1 = k then rest else (k1, v1) :: mapDelete rest k

/-- A table whose keys are pairwise distinct (what a JavaScript `Map`
guarantees: at most one entry per key). -/
def nodupKeys {α : Type} (t : List (String × α)) : Prop :=
  (t.map Prod.fst).Nodup

/-- `getSession(callSid)` over the explicit session table: returns the
existing session, or installs and returns a fresh one. -/
def getSessionTbl (t : List (String × Session)) (callSid : String) :
    Session × List (String × Session) :=
  match mapGet t callSid with
  | some s => (s, t)
  | none => (initSession, mapSet t callSid initSession)

/-- The first effect of `searchAndDownload(callSid, query)` (`server.js`
line 94): unconditionally records a fresh pending job for the call,
whatever entry was there before. -/
def startSearch (queueTbl : List (String × JobStatus)) (callSid : String)
    (now : Nat) : List (String × JobStatus) :=
  mapSet queueTbl callSid (.pending now)

/-- The `/twiml` call-start handler of `server.js`: callers not on the
allow-list are rejected before any state is touched; otherwise the session
is discarded and the welcome prompt with a main gather is rendered. -/
def twimlHandler (caller callSid : String) (tbl : List (String × Session)) :
    List TwiML × List (String × Session) :=
  if caller ∉ VERIFIED_CALLERS then
    ([.reject], tbl)
  else
    ([.say WELCOME, .gather ("/main-gather")], mapDelete tbl callSid)

/-- The digit dispatch of the `server.js` `/main-gather` handler.  `reply`
abstracts the string `askGemini` resolves to.  Note the handler
special-cases only the hash digit; there is no reset-digit branch. -/
def mainGather (digits speech : Option String) (reply : String) : List TwiML :=
  if digits = some ("#") then
    [.redirect ("/music-mode")]
  else if speech = none ∧ digits = none then
    [.gather ("/main-gather")]
  else
    [.say reply, .gather ("/main-gather")]

/-- The catch-block behaviour of the `server.js` `/main-gather` handler:
the body either computes a document (`Except.ok`) or raises
(`Except.error`); the catch block only logs, so no document is sent. -/
def mainGatherRespond (body : Except String (List TwiML)) : Option (List TwiML) :=
  match body with
  | .ok doc => some doc
  | .error _ => none

/-- The catch-block behaviour of the `part_002` `/main-gather` handler:
on an exception it sends a bare spoken apology with no gather and no
redirect. -/
def mainGatherRescueP2 (body : Except String (List TwiML)) : List TwiML :=
  match body with
  | .ok doc => doc
  | .error _ => [.say ("System error.")]

/-- The history-cursor update of `/music-logic` for a navigation digit:
digit 4 decrements when the cursor is positive, digit 6 increments when it
is below the last index, digit 5 falls through both guards. -/
def navIndex (d : String) (len : Nat) (i : Int) : Int :=
  let i1 := if d = "4" ∧ 0 < i then i - 1 else i
  if d = "6" ∧ i1 < (len : Int) - 1 then i1 + 1 else i1

/-- JavaScript array indexing: `l[i]` is `undefined` (here `none`) for a
negative or out-of-range index. -/
def listAt (l : List Track) (i : Int) : Option Track :=
  if 0 ≤ i then l.get? i.toNat else none

/-- The `server.js` `/music-logic` handler.  Result `none` models the crash
of `song.title` on an out-of-range access (`undefined` dereference); the
last component is the query handed to `searchAndDownload`, when one is. -/
def musicLogic (digits speech : Option String) (s : Session) :
    Option (List TwiML × Session × Option String) :=
  if digits = some ("0") then
    some ([.redirect ("/twiml")], s, none)
  else if digits = some ("4") ∨ digits = some ("5") ∨ digits = some ("6") then
    if s.musicHistory.length = 0 then
      some ([.say MESSAGES_NO_HISTORY, .redirect ("/music-mode")], s, none)
    else
      let i := navIndex (digits.getD "") s.musicHistory.length s.index
      match listAt s.musicHistory i with
      | some song =>
          some ([.say ("Playing " ++ song.title), .gatherPlay song.url,
                 .redirect ("/music-mode")],
                { s with index := i }, none)
      | none => none
  else
    match speech with
    | some q =>
        some ([.say MESSAGES_SEARCHING, .redirect ("/music-wait-loop")], s, some q)
    | none =>
        some ([.say ("I did not catch that."), .redirect ("/music-mode")], s, none)

/-- The `server.js` `/music-wait-loop` handler: one poll of the download
queue at wall-clock `now`.  Returns the document, the updated session and
the queue entry left for the call (`none` when the handler deletes it). -/
def musicWaitLoop (now : Nat) (dl : Option JobStatus) (s : Session) :
    List TwiML × Session × Option JobStatus :=
  match dl with
  | none => ([.redirect ("/music-mode")], s, none)
  | some (.done url title) =>
      let hist := s.musicHistory ++ [⟨title, url⟩]
      ([.say ("Playing " ++ title), .gatherPlay url, .redirect ("/music-mode")],
       { s with musicHistory := hist, index := (hist.length : Int) - 1 },
       some (.done url title))
  | some .error =>
      ([.say ("Download failed."), .redirect ("/music-mode")], s, none)
  | some (.pending t0) =>
      if 60000 < (now : Int) - (t0 : Int) then
        ([.say ("Download failed."), .redirect ("/music-mode")], s, none)
      else
        ([.pause 2, .redirect ("/music-wait-loop")], s, some (.pending t0))

/-- The `part_001` `/music-check-status` poll handler.  Its body never reads
the clock (its `startDownload` records no `startTime` and the handler
checks none), so the wall-clock argument is unused: a pending job is
re-polled forever. -/
def musicCheckStatus (_now : Nat) (dl : Option JobStatus) (s : Session) :
    List TwiML × Session × Option JobStatus :=
  match dl with
  | none => ([.say ("Error."), .redirect ("/music-mode")], s, none)
  | some (.pending t0) =>
      ([.pause 3, .redirect ("/music-check-status")], s, some (.pending t0))
  | some .error =>
      ([.say ("Download failed."), .redirect ("/music-mode")], s, none)
  | some (.done url title) =>
      let hist := s.musicHistory ++ [⟨title, url⟩]
      ([.say ("Playing " ++ title), .gatherPlay url, .redirect ("/music-mode")],
       { s with musicHistory := hist, index := (hist.length : Int) - 1 },
       none)

/-- The inputs that touch a session's music history: a digit arriving at
`/music-logic`, or the wait loop observing a completed job. -/
inductive MusicOp where
  | nav (d : String)
  | complete (title url : String)

/-- One session-state step of the music flow; `none` models a crash. -/
def musicStepO (s : Session) : MusicOp → Option Session
  | .nav d => (musicLogic (some d) none s).map (fun r => r.2.1)
  | .complete title url => some (musicWaitLoop 0 (some (.done url title)) s).2.1

/-- Runs a sequence of music-flow inputs; `none` if any step crashes. -/
def musicRun : List MusicOp → Session → Option Session
  | [], s => some s
  | op :: rest, s =>
      match musicStepO s op with
      | some s1 => musicRun rest s1
      | none => none

/-- The cursor invariant of the claim: whenever the play history is
non-empty, `index` is a valid position into it. -/
def cursorOK (s : Session) : Prop :=
  s.musicHistory ≠ [] → 0 ≤ s.index ∧ s.index < (s.musicHistory.length : Int)

/-- `askGemini`, with the remote call abstracted: the i-th element of
`keyResults` is `none` when trying the i-th credential throws and
`some r` when it returns reply `r`.  Mirrors the source: an empty key list
short-circuits, each key is tried in order, the transcript is extended
only after a successful reply, and the loop falls through to the fixed
fallback. -/
def tryKeys : List (Option String) → List ChatTurn → String → String × List ChatTurn
  | [], hist, _ => ("Brain offline.", hist)
  | none :: rest, hist, text => tryKeys rest hist text
  | some r :: _, hist, text =>
      (r, hist ++ [⟨"user", text⟩, ⟨"model", r⟩])

/-- Top level of `askGemini`: the zero-keys guard, then the credential loop. -/
def askGemini (keyResults : List (Option String)) (hist : List ChatTurn)
    (text : String) : String × List ChatTurn :=
  if keyResults.length = 0 then ("No API Keys.", hist)
  else tryKeys keyResults hist text

/-- The `close` handler of `part_004`'s `searchAndDownload`: looks for any
file whose name starts with the job id (`foundFile`, with its byte size)
and records `done` only when one exists with size strictly above 10000
bytes; otherwise it records `error` at once. -/
def searchAndDownloadClose (query baseUrl : String)
    (foundFile : Option (String × Nat)) : JobStatus :=
  match foundFile with
  | some (name, size) =>
      if 10000 < size then .done (baseUrl ++ "/music/" ++ name) query
      else .error
  | none => .error

/-- The `close` handler of the second `server.js` variant's `startDownload`:
records `done` purely from a zero exit code, without looking at the disk. -/
def startDownloadClose (query baseUrl filename : String) (code : Int) : JobStatus :=
  if code = 0 then .done (baseUrl ++ "/music/" ++ filename) query
  else .error

/-- Modelled from the spec: the Playback Position Tracker of section 4.3.
No pause/resume code exists under `src/` (no variant stores
`playStartedAt` or `accumulatedPlaySeconds`); the state is taken verbatim
from the spec's data model. -/
structure PlaybackState where
  playStartedAt : Nat
  accumulatedPlaySeconds : Nat
deriving DecidableEq

/-- Modelled from the spec: starting a new track resets
`accumulatedPlaySeconds` to 0 and stamps `playStartedAt`. -/
def startTrack (now : Nat) : PlaybackState :=
  { playStartedAt := now, accumulatedPlaySeconds := 0 }

/-- Modelled from the spec: `markPause(session, now)` adds
`now - playStartedAt` to `accumulatedPlaySeconds`. -/
def markPause (ps : PlaybackState) (now : Nat) : PlaybackState :=
  { ps with accumulatedPlaySeconds :=
      ps.accumulatedPlaySeconds + (now - ps.playStartedAt) }

/-- Modelled from the spec: `prepareResume` re-slices the track to start at
`accumulatedPlaySeconds` (returned as the trim offset of the new media
reference) and resets `playStartedAt` to now. -/
def prepareResume (ps : PlaybackState) (now : Nat) : PlaybackState × Nat :=
  ({ ps with playStartedAt := now }, ps.accumulatedPlaySeconds)

/-- Splits a character list on slashes, like `"…".split('/')`. -/
def splitSegs : List Char → List (List Char)
  | [] => [[]]
  | c :: cs =>
      let r := splitSegs cs
      if c = '/' then [] :: r
      else
        match r with
        | [] => [[c]]
        | seg :: rest => (c :: seg) :: rest

/-- POSIX path normalisation over segments, as Node's `path.resolve`
performs it: empty and `.` segments vanish, `..` pops the last kept
segment (and is dropped at the root). -/
def resolveSegs : List (List Char) → List (List Char) → List (List Char)
  | stack, [] => stack
  | stack, seg :: rest =>
      if seg = [] ∨ seg = ['.'] then resolveSegs stack rest
      else if seg = ['.', '.'] then resolveSegs stack.dropLast rest
      else resolveSegs (stack ++ [seg]) rest

/-- Joins segments with slashes. -/
def joinSegs : List (List Char) → List Char
  | [] => []
  | [seg] => seg
  | seg :: rest => seg ++ '/' :: joinSegs rest

/-- Whether a path string is absolute. -/
def isAbsolute (f : String) : Bool :=
  match f.data with
  | [] => false
  | c :: _ => c = '/'

/-- Node's `path.resolve(dir, f)` for an absolute `dir`: an absolute `f`
stands alone, otherwise `f` is joined onto `dir`; the result is
normalised. -/
def pathResolve (dir f : String) : String :=
  let full : List Char :=
    if isAbsolute f then f.data else dir.data ++ '/' :: f.data
  String.mk ('/' :: joinSegs (resolveSegs [] (splitSegs full)))

/-- The path the `GET /music/:filename` handler reads and serves:
`path.resolve(CONFIG.DOWNLOAD_DIR, req.params.filename)`, with no
sanitisation of the request-supplied name. -/
def musicFilePath (filename : String) : String :=
  pathResolve DOWNLOAD_DIR filename

/-- Whether a resolved path lies strictly inside a directory. -/
def isInsideDir (dir p : String) : Bool :=
  (dir ++ "/").data.isPrefixOf p.data

/-- Helper: the navigation update keeps a valid cursor valid. -/
theorem navIndex_bounds (d : String) (len : Nat) (i : Int)
    (h0 : 0 ≤ i) (h1 : i < (len : Int)) :
    0 ≤ navIndex d len i ∧ navIndex d len i < (len : Int) := by
  simp only [navIndex]
  split_ifs with hA hB hB <;> omega

/-- Helper: indexing with a valid cursor succeeds. -/
theorem listAt_isSome (l : List Track) (i : Int)
    (h0 : 0 ≤ i) (h1 : i < (l.length : Int)) :
    ∃ t, listAt l i = some t := by
  unfold listAt
  rw [if_pos h0]
  have hn : i.toNat < l.length := by omega
  cases hg : l.get? i.toNat with
  | none =>
      rw [List.get?_eq_none] at hg
      omega
  | some t => exact ⟨t, rfl⟩

/-- Helper: every single music-flow step succeeds from a state satisfying
the cursor invariant and re-establishes it. -/
theorem musicStepO_some (s : Session) (op : MusicOp) (h : cursorOK s) :
    ∃ s1, musicStepO s op = some s1 ∧ cursorOK s1 := by
  cases op with
  | complete title url =>
      refine ⟨_, rfl, ?_⟩
      intro _
      simp [musicWaitLoop, List.length_append]
  | nav d =>
      by_cases h0 : d = "0"
      · exact ⟨s, by simp [musicStepO, musicLogic, h0], h⟩
      · by_cases h456 : d = "4" ∨ d = "5" ∨ d = "6"
        · by_cases hlen : s.musicHistory.length = 0
          · exact ⟨s, by simp [musicStepO, musicLogic, h0, h456, hlen], h⟩
          · have hne : s.musicHistory ≠ [] := by
              intro he
              rw [he] at hlen
              exact hlen rfl
            obtain ⟨hi0, hi1⟩ := h hne
            obtain ⟨hb0, hb1⟩ :=
              navIndex_bounds d s.musicHistory.length s.index hi0 hi1
            obtain ⟨t, ht⟩ := listAt_isSome s.musicHistory _ hb0 hb1
            refine ⟨{ s with
                index := navIndex d s.musicHistory.length s.index }, ?_, ?_⟩
            · simp [musicStepO, musicLogic, h0, h456, hlen, ht]
            · intro _
              exact ⟨hb0, hb1⟩
        · exact ⟨s, by simp [musicStepO, musicLogic, h0, h456], h⟩

/-- Helper: runs of music-flow inputs never crash and preserve the cursor
invariant. -/
theorem musicRun_inv (ops : List MusicOp) (s : Session) (h : cursorOK s) :
    ∃ s1, musicRun ops s = some s1 ∧ cursorOK s1 := by
  induction ops generalizing s with
  | nil => exact ⟨s, rfl, h⟩
  | cons op rest ih =>
      obtain ⟨s1, hs1, h1⟩ := musicStepO_some s op h
      obtain ⟨s2, hs2, h2⟩ := ih s1 h1
      exact ⟨s2, by simp [musicRun, hs1, hs2], h2⟩

/-- Claim C2: from a fresh session, every sequence of music-flow inputs
keeps `index` inside `[0, len-1]` whenever `musicHistory` is non-empty and
never crashes; navigation digits on an empty history produce the
no-history announcement and leave the session unchanged; digit 4 is a
decrement with floor 0, digit 5 leaves the cursor unchanged, digit 6 is an
increment with ceiling `len-1`; and a completed job appends one track and
sets the cursor to the new last index. -/
theorem c2_history_cursor :
    (∀ ops : List MusicOp, ∃ s1, musicRun ops initSession = some s1 ∧ cursorOK s1)
    ∧ (∀ (d : String) (s : Session), (d = "4" ∨ d = "5" ∨ d = "6") →
        s.musicHistory = [] →
        musicLogic (some d) none s
          = some ([.say MESSAGES_NO_HISTORY, .redirect ("/music-mode")], s, none))
    ∧ (∀ (len : Nat) (i : Int), 0 ≤ i → i < (len : Int) →
        navIndex "4" len i = max (i - 1) 0
        ∧ navIndex "5" len i = i
        ∧ navIndex "6" len i = min (i + 1) ((len : Int) - 1))
    ∧ (∀ (now : Nat) (s : Session) (url title : String),
        (musicWaitLoop now (some (.done url title)) s).2.1.index
          = (s.musicHistory.length : Int)
        ∧ (musicWaitLoop now (some (.done url title)) s).2.1.musicHistory
          = s.musicHistory ++ [⟨title, url⟩]) := by
  refine ⟨?_, ?_, ?_, ?_⟩
  · intro ops
    exact musicRun_inv ops initSession (fun hne => absurd rfl hne)
  · intro d s hd he
    rcases hd with rfl | rfl | rfl <;> simp [musicLogic, he]
  · intro len i h0 h1
    refine ⟨?_, ?_, ?_⟩ <;>
      simp only [navIndex] <;>
      (try split_ifs) <;>
      simp_all <;>
      omega
  · intro now s url title
    constructor <;> simp [musicWaitLoop, List.length_append]

/-- Witness for C2: on a fresh (empty-history) session, the previous digit
announces the absence of history and changes nothing. -/
theorem c2_witness :
    musicLogic (some ("4")) none initSession
      = some ([.say MESSAGES_NO_HISTORY, .redirect ("/music-mode")], initSession, none) :=
  c2_history_cursor.2.1 "4" initSession (Or.inl rfl) rfl

/-- Claim C1 (amended): in the `server.js` `/music-wait-loop`, a `done` job
yields the playing response, an `error` job yields the failure
announcement and a return to the music menu, and a `pending` job yields
that same failure response exactly when strictly more than 60000 ms have
elapsed since job start — otherwise it keeps polling; the `part_001`
`/music-check-status` variant, by contrast, re-polls a pending job at
every poll regardless of elapsed time (it has no wait budget). -/
theorem c1_wait_budget (now t0 : Nat) (s : Session) (url title : String) :
    (musicWaitLoop now (some (.done url title)) s).1
      = [.say ("Playing " ++ title), .gatherPlay url, .redirect ("/music-mode")]
    ∧ musicWaitLoop now (some .error) s
      = ([.say ("Download failed."), .redirect ("/music-mode")], s, none)
    ∧ musicWaitLoop now (some (.pending t0)) s
      = (if 60000 < (now : Int) - (t0 : Int)
         then ([.say ("Download failed."), .redirect ("/music-mode")], s, none)
         else ([.pause 2, .redirect ("/music-wait-loop")], s, some (.pending t0)))
    ∧ musicCheckStatus now (some (.pending t0)) s
      = ([.pause 3, .redirect ("/music-check-status")], s, some (.pending t0)) :=
  ⟨rfl, rfl, rfl, rfl⟩

/-- Counterexample to C1 as stated: polled 70000 ms after job start (past
the 60-second budget), the `part_001` `/music-check-status` loop still
answers a pending job with pause-and-repoll — no error announcement, no
return to the music menu, ever. -/
theorem c1_check_status_no_timeout :
    60000 < (70000 : Int) - (0 : Int)
    ∧ musicCheckStatus 70000 (some (.pending 0)) initSession
        = ([.pause 3, .redirect ("/music-check-status")], initSession,
           some (.pending 0)) :=
  ⟨by decide, rfl⟩

/-- Claim C3: pausing adds exactly the elapsed play time, a resume slice
starts at the accumulated seconds, and two pause/resume cycles of
durations `d1` and `d2` yield a third slice starting at `d1 + d2` —
no restart from zero and no double count. -/
theorem c3_pause_resume_accumulates (ps : PlaybackState) (t0 d1 r1 d2 r2 : Nat) :
    (markPause ps (ps.playStartedAt + d1)).accumulatedPlaySeconds
      = ps.accumulatedPlaySeconds + d1
    ∧ (prepareResume (markPause (startTrack t0) (t0 + d1)) r1).2 = d1
    ∧ (prepareResume
        (markPause
          (prepareResume (markPause (startTrack t0) (t0 + d1)) r1).1
          (r1 + d2))
        r2).2 = d1 + d2 := by
  refine ⟨?_, ?_, ?_⟩ <;> simp [markPause, prepareResume, startTrack]

/-- Claim C4 (code bug): when the `/main-gather` body raises, the
`server.js` catch block only logs — the handler sends no response document
at all — and the `part_002` variant sends a bare apology with neither a
gather nor a redirect, so in both cases the call is left without the
claimed safe transition back to the main menu. -/
theorem c4_exception_yields_no_document :
    mainGatherRespond (Except.error "TypeError") = none
    ∧ mainGatherRescueP2 (Except.error "TypeError") = [.say ("System error.")] :=
  ⟨rfl, rfl⟩

/-- Claim C5 (amended): the reset digit 0 is dispatched before any
mode-specific logic in `/music-logic` — for every session state and any
accompanying speech it redirects to `/twiml` — while the `server.js`
`/main-gather` handler has no reset branch: digit 0 falls through to the
chat-reply path. -/
theorem c5_reset_checked_first (speech : Option String) (s : Session)
    (reply : String) :
    musicLogic (some ("0")) speech s = some ([.redirect ("/twiml")], s, none)
    ∧ mainGather (some ("0")) speech reply
        = [.say reply, .gather ("/main-gather")] := by
  constructor
  · rfl
  · unfold mainGather
    rw [if_neg (by decide), if_neg (by simp)]

/-- Counterexample to C5 as stated: a digit-0 event in Chat mode
(`/main-gather`, no speech) produces a chat reply and another main gather
— not the claimed transition to the main menu. -/
theorem c5_chat_reset_not_handled :
    mainGather (some ("0")) none "Brain offline."
      = [.say ("Brain offline."), .gather ("/main-gather")] := by decide

/-- Claim C6 (amended): the `part_004` close handler records `done` exactly
when a file matching the job id was found with size strictly above 10000
bytes, and then with the URL built from the base address and that
filename; with no such file it records `error` at once.  The second
`server.js` variant records `done` exactly when the exit code is 0,
without consulting the disk. -/
theorem c6_job_recording (query baseUrl filename : String)
    (ff : Option (String × Nat)) (code : Int) :
    ((∃ u t, searchAndDownloadClose query baseUrl ff = .done u t)
        ↔ ∃ name size, ff = some (name, size) ∧ 10000 < size)
    ∧ (∀ (name : String) (size : Nat), 10000 < size →
        searchAndDownloadClose query baseUrl (some (name, size))
          = .done (baseUrl ++ "/music/" ++ name) query)
    ∧ searchAndDownloadClose query baseUrl none = .error
    ∧ ((∃ u t, startDownloadClose query baseUrl filename code = .done u t)
        ↔ code = 0) := by
  refine ⟨?_, ?_, rfl, ?_⟩
  · rcases ff with _ | ⟨name, size⟩
    · simp [searchAndDownloadClose]
    · by_cases hsz : 10000 < size
      · simp only [searchAndDownloadClose, if_pos hsz]
        constructor
        · intro _
          exact ⟨name, size, rfl, hsz⟩
        · intro _
          exact ⟨_, _, rfl⟩
      · simp [searchAndDownloadClose, hsz]
        omega
  · intro name size hsz
    simp [searchAndDownloadClose, hsz]
  · by_cases hc : code = 0 <;> simp [startDownloadClose, hc]

/-- Witness for C6: a 20000-byte file found for the job is recorded as
`done` with its playable URL. -/
theorem c6_witness :
    searchAndDownloadClose "jazz" "https://b" (some ("a.mp3", 20000))
      = .done ("https://b/music/a.mp3") "jazz" :=
  (c6_job_recording "jazz" "https://b" "f" (some ("a.mp3", 20000)) 0).2.1
    "a.mp3" 20000 (by decide)

/-- Counterexample to C6 as stated: with no output file the `part_004`
close handler records `error` on the very first attempt — there is no
retry against a broader search — and the second `server.js` variant
records `done` from exit code 0 alone, with no file verified on disk. -/
theorem c6_no_retry :
    searchAndDownloadClose "jazz" "https://b" none = .error
    ∧ startDownloadClose "jazz" "https://b" "f.mp3" 0
        = .done ("https://b/music/f.mp3") "jazz" :=
  ⟨rfl, rfl⟩

/-- Helper: `Map.set` makes the key map to the new value. -/
theorem mapGet_mapSet_self {α : Type} (t : List (String × α)) (k : String)
    (v : α) : mapGet (mapSet t k v) k = some v := by
  induction t with
  | nil => simp [mapSet, mapGet]
  | cons hd tl ih =>
      obtain ⟨k1, v1⟩ := hd
      by_cases hk : k1 = k
      · simp [mapSet, mapGet, hk]
      · simp [mapSet, mapGet, hk, ih]

/-- Helper: a key of `mapSet t k v` is a key of `t` or is `k`. -/
theorem mapSet_keys_sub {α : Type} (t : List (String × α)) (k x : String)
    (v : α) (hx : x ∈ (mapSet t k v).map Prod.fst) :
    x ∈ t.map Prod.fst ∨ x = k := by
  induction t with
  | nil =>
      simp only [mapSet, List.map_cons, List.map_nil, List.mem_singleton] at hx
      exact Or.inr hx
  | cons hd tl ih =>
      obtain ⟨k1, v1⟩ := hd
      by_cases hk : k1 = k
      · subst hk
        have he : mapSet ((k1, v1) :: tl) k1 v = (k1, v) :: tl := by
          simp [mapSet]
        rw [he, List.map_cons, List.mem_cons] at hx
        rcases hx with hx | hx
        · exact Or.inr hx
        · exact Or.inl (List.mem_cons_of_mem _ hx)
      · have he : mapSet ((k1, v1) :: tl) k v = (k1, v1) :: mapSet tl k v := by
          simp [mapSet, hk]
        rw [he, List.map_cons, List.mem_cons] at hx
        rcases hx with hx | hx
        · exact Or.inl (List.mem_cons.mpr (Or.inl hx))
        · rcases ih hx with h1 | h1
          · exact Or.inl (List.mem_cons_of_mem _ h1)
          · exact Or.inr h1

/-- Helper: `Map.set` keeps keys pairwise distinct. -/
theorem mapSet_nodupKeys {α : Type} (t : List (String × α)) (k : String)
    (v : α) (h : nodupKeys t) : nodupKeys (mapSet t k v) := by
  induction t with
  | nil => simp [mapSet, nodupKeys]
  | cons hd tl ih =>
      obtain ⟨k1, v1⟩ := hd
      unfold nodupKeys at h ⊢
      simp only [List.map_cons, List.nodup_cons] at h
      obtain ⟨hnotin, hnd⟩ := h
      by_cases hk : k1 = k
      · subst hk
        have he : mapSet ((k1, v1) :: tl) k1 v = (k1, v) :: tl := by
          simp [mapSet]
        rw [he, List.map_cons, List.nodup_cons]
        exact ⟨hnotin, hnd⟩
      · have he : mapSet ((k1, v1) :: tl) k v = (k1, v1) :: mapSet tl k v := by
          simp [mapSet, hk]
        rw [he, List.map_cons, List.nodup_cons]
        refine ⟨?_, ih hnd⟩
        intro hmem
        rcases mapSet_keys_sub tl k k1 v hmem with h1 | h1
        · exact hnotin h1
        · exact hk h1

/-- Claim C7 (amended): the session and job tables, being keyed maps, hold
at most one entry per call identifier (key sets stay duplicate-free under
`getSession` and under starting a search); but a new search
unconditionally installs a fresh pending job at the call's key, whatever
entry — pending included — was there before. -/
theorem c7_job_table (t : List (String × JobStatus))
    (u : List (String × Session)) (sid : String) (now : Nat)
    (ht : nodupKeys t) (hu : nodupKeys u) :
    mapGet (startSearch t sid now) sid = some (.pending now)
    ∧ nodupKeys (startSearch t sid now)
    ∧ nodupKeys (getSessionTbl u sid).2 := by
  refine ⟨mapGet_mapSet_self t sid _, mapSet_nodupKeys t sid _ ht, ?_⟩
  unfold getSessionTbl
  rcases hg : mapGet u sid with _ | s
  · simp only [hg]
    exact mapSet_nodupKeys u sid _ hu
  · simp only [hg]
    exact hu

/-- Witness for C7: starting a search on a one-entry queue records the
fresh pending job at the call's key. -/
theorem c7_witness :
    mapGet (startSearch [("CA1", JobStatus.pending 0)] "CA1" 5) "CA1"
      = some (.pending 5) :=
  (c7_job_table [("CA1", JobStatus.pending 0)] [] "CA1" 5
    (by simp [nodupKeys]) (by simp [nodupKeys])).1

/-- Counterexample to C7 as stated: with a job still pending (non-terminal)
and only 10000 ms old — far inside the 60000 ms budget — a new search
replaces the job-table entry anyway. -/
theorem c7_overwrites_pending_job :
    isTerminal (JobStatus.pending 0) = false
    ∧ (10000 : Nat) - 0 ≤ 60000
    ∧ mapGet [("CA1", JobStatus.pending 0)] "CA1" = some (.pending 0)
    ∧ mapGet (startSearch [("CA1", JobStatus.pending 0)] "CA1" 10000) "CA1"
        = some (.pending 10000) := by
  refine ⟨rfl, by decide, ?_, ?_⟩ <;> simp [mapGet, startSearch, mapSet]

/-- Claim C8: a call-start event from a caller outside the allow-list is
answered with an immediate reject and the session table is left exactly as
it was — no session is created. -/
theorem c8_unauthorized_rejected (caller callSid : String)
    (tbl : List (String × Session)) (h : caller ∉ VERIFIED_CALLERS) :
    twimlHandler caller callSid tbl = ([.reject], tbl) := by
  unfold twimlHandler
  rw [if_pos h]

/-- Witness for C8: an unlisted number is rejected against an empty table. -/
theorem c8_witness :
    twimlHandler "+15550001111" "CA1" [] = ([.reject], []) :=
  c8_unauthorized_rejected "+15550001111" "CA1" [] (by decide)

/-- Helper: the credential loop falls through to the fixed fallback when
every key fails, leaving the transcript untouched. -/
theorem tryKeys_all_none (l : List (Option String)) (hist : List ChatTurn)
    (text : String) (h : ∀ k ∈ l, k = none) :
    tryKeys l hist text = ("Brain offline.", hist) := by
  induction l with
  | nil => rfl
  | cons hd tl ih =>
      have hhd := h hd (List.mem_cons_self hd tl)
      subst hhd
      exact ih (fun k hk => h k (List.mem_cons_of_mem _ hk))

/-- Helper: failing keys are skipped without touching the transcript. -/
theorem tryKeys_skip (n : Nat) (l : List (Option String))
    (hist : List ChatTurn) (text : String) :
    tryKeys (List.replicate n none ++ l) hist text = tryKeys l hist text := by
  induction n with
  | zero => rfl
  | succ n ih => exact ih

/-- Claim C9: when every configured credential fails, `askGemini` returns
the fixed fallback string and the transcript is exactly as before (with no
keys configured it returns the other fixed fallback, transcript also
untouched); the user turn and model reply are appended exactly when some
credential succeeds. -/
theorem c9_all_keys_fail (keyResults : List (Option String))
    (hist : List ChatTurn) (text : String) (h1 : keyResults ≠ [])
    (h2 : ∀ k ∈ keyResults, k = none) :
    askGemini keyResults hist text = ("Brain offline.", hist)
    ∧ askGemini [] hist text = ("No API Keys.", hist)
    ∧ ∀ (n : Nat) (r : String) (rest : List (Option String)),
        askGemini (List.replicate n none ++ some r :: rest) hist text
          = (r, hist ++ [⟨"user", text⟩, ⟨"model", r⟩]) := by
  refine ⟨?_, rfl, ?_⟩
  · unfold askGemini
    rw [if_neg (by simpa using h1)]
    exact tryKeys_all_none _ _ _ h2
  · intro n r rest
    unfold askGemini
    rw [if_neg (by simp), tryKeys_skip]
    rfl

/-- Witness for C9: two throwing credentials produce the fallback and an
unchanged (empty) transcript. -/
theorem c9_witness :
    askGemini [none, none] [] "hi" = ("Brain offline.", []) :=
  (c9_all_keys_fail [none, none] [] "hi" (by decide) (by decide)).1

/-- Claim C10 (code bug): the `/music/:filename` handler serves
`path.resolve("/tmp", filename)` unsanitised; a filename with
parent-directory segments resolves outside the download directory
(`"../etc/passwd"` resolves to `"/etc/passwd"`), while an ordinary
filename resolves inside it. -/
theorem c10_traversal_bug :
    musicFilePath "../etc/passwd" = "/etc/passwd"
    ∧ isInsideDir "/tmp" (musicFilePath "../etc/passwd") = false
    ∧ musicFilePath "song.mp3" = "/tmp/song.mp3"
    ∧ isInsideDir "/tmp" (musicFilePath "song.mp3") = true :=
  ⟨rfl, rfl, rfl, rfl⟩
